import Mathlib

/-
Verification development for the n32g4xx-hal clock tree solver (rcc),
serial baud divider (serial), GPIO pin mode engine (gpio) and peripheral
bus enable logic (rcc/enable).

All register values and frequencies are machine u32 values; they are
embedded as Nat with explicit wrapping (mod 2 ^ 32) at the places where
the Rust code can wrap in release builds.  A Rust panic (assertion
failure, arithmetic underflow in debug, division by zero) is embedded as
the value none of an Option result.  Device dependent constants are taken
for the n32g430 feature (SYSCLK_MAX = 128 MHz), the device used by the
concrete scenarios of the specification.
-/

namespace N32G4

/-- Built-in high speed internal oscillator frequency, src/rcc/mod.rs line 284. -/
def HSI : Nat := 16000000

/-- Minimum system clock frequency, src/rcc/mod.rs line 287. -/
def SYSCLK_MIN : Nat := 32000000

/-- Maximum system clock frequency for the n32g430 feature, src/rcc/mod.rs line 295. -/
def SYSCLK_MAX : Nat := 128000000

/-- Maximum APB2 peripheral clock frequency, src/rcc/mod.rs line 307. -/
def PCLK2_MAX : Nat := SYSCLK_MAX / 2

/-- Maximum APB1 peripheral clock frequency, src/rcc/mod.rs line 310. -/
def PCLK1_MAX : Nat := SYSCLK_MAX / 4

/-- The key of the iterator in MainPll.fast_setup, src/rcc/pll.rs lines 26-30:
for a candidate prescaler, the distance between the target frequency and the
realized PLL output.  In u32 the subtraction cannot underflow because
vco_in * (target / vco_in) is at most target. -/
def pllResidual (pllsrcclk target presc : Nat) : Nat :=
  let vco_in := pllsrcclk / presc
  target - vco_in * (target / vco_in)

/-- Prescaler selection of MainPll.fast_setup, src/rcc/pll.rs lines 24-34.
The Rust code evaluates the range 1..=2 with Iterator.max_by_key, which
returns the element with the LARGEST key and, on ties, the LAST such
element; with the HSI source the prescaler is the constant 2.
The Rust iterator panics on division by zero only when pllsrcclk < 2,
a case never exercised by the theorems below. -/
def pllPresc (pllsrcclk target : Nat) (use_hse : Bool) : Nat :=
  if use_hse then
    if pllResidual pllsrcclk target 1 ≤ pllResidual pllsrcclk target 2 then 2 else 1
  else 2

/-- Derived PLL multiplier, src/rcc/pll.rs line 36. -/
def pllMul (pllsrcclk target : Nat) (use_hse : Bool) : Nat :=
  target / (pllsrcclk / pllPresc pllsrcclk target use_hse)

/-- Hardware encoding of the PLL multiplier, src/rcc/pll.rs lines 37-41:
a high flag together with a base field.  The subtraction pll_mul - 1 is
u32 arithmetic; for pll_mul = 0 it wraps in release builds (and panics in
debug builds), which the embedding makes visible by computing modulo 2 ^ 32. -/
def pllmulfctEnc (pll_mul : Nat) : Bool × Nat :=
  if 16 < pll_mul then (true, pll_mul - 17)
  else (false, (pll_mul + (2 ^ 32 - 1)) % 2 ^ 32)

/-- Result of MainPll.fast_setup, src/rcc/pll.rs lines 3-6. -/
structure MainPll where
  use_pll : Bool
  pllsysclk : Option Nat
deriving DecidableEq

/-- MainPll.fast_setup, src/rcc/pll.rs lines 9-54, as a pure function from
the source clock, the source selector and the optional target frequency to
the realized PLL state.  The register write of the encoded multiplier is
modelled separately by pllmulfctEnc. -/
def MainPll.fast_setup (pllsrcclk : Nat) (use_hse : Bool) (pllsysclk : Option Nat) : MainPll :=
  match pllsysclk with
  | none => ⟨false, none⟩
  | some target =>
    let presc := pllPresc pllsrcclk target use_hse
    let vco_in := pllsrcclk / presc
    let pll_mul := target / vco_in
    ⟨true, some (vco_in * pll_mul)⟩

/-- Ceiling division as written in freeze_internal, src/rcc/mod.rs line 426:
(a + b - 1) / b in u32.  For b = 0 the Rust division panics; the Nat
embedding returns 0 there, which the callers below map to the same
panic (none) through the 0 branch of the bucket tables. -/
def divCeil (a b : Nat) : Nat := (a + b - 1) / b

/-- AHB prescaler bucket table of freeze_internal, src/rcc/mod.rs lines 426-437.
The 0 branch is the unreachable/panic arm. -/
def ahbBucket (r : Nat) : Option Nat :=
  if r = 0 then none
  else if r = 1 then some 1
  else if r = 2 then some 2
  else if r ≤ 5 then some 4
  else if r ≤ 11 then some 8
  else if r ≤ 39 then some 16
  else if r ≤ 95 then some 64
  else if r ≤ 191 then some 128
  else if r ≤ 383 then some 256
  else some 512

/-- APB prescaler bucket table of freeze_internal, src/rcc/mod.rs
lines 445-452 and 462-469. -/
def apbBucket (r : Nat) : Option Nat :=
  if r = 0 then none
  else if r = 1 then some 1
  else if r = 2 then some 2
  else if r ≤ 5 then some 4
  else if r ≤ 11 then some 8
  else some 16

/-- Legal AHB dividers, src/rcc/mod.rs lines 428-436 (note: no 32). -/
def ahbDividers : List Nat := [1, 2, 4, 8, 16, 64, 128, 256, 512]

/-- Legal APB dividers, src/rcc/mod.rs lines 447-451. -/
def apbDividers : List Nat := [1, 2, 4, 8, 16]

/-- Clock configuration builder state, src/rcc/mod.rs lines 312-319. -/
structure CFGR where
  hse : Option Nat
  hse_bypass : Bool
  hclk : Option Nat
  pclk1 : Option Nat
  pclk2 : Option Nat
  sysclk : Option Nat
deriving DecidableEq

/-- Frozen clock frequencies, src/rcc/mod.rs lines 588-593. -/
structure Clocks where
  hclk : Nat
  pclk1 : Nat
  pclk2 : Nat
  sysclk : Nat
deriving DecidableEq

/-- PLL source clock of freeze_internal, src/rcc/mod.rs line 412. -/
def CFGR.pllsrc (c : CFGR) : Nat := c.hse.getD HSI

/-- Requested system clock of freeze_internal, src/rcc/mod.rs line 413. -/
def CFGR.sysclkTarget (c : CFGR) : Nat := c.sysclk.getD c.pllsrc

/-- Realized system clock of freeze_internal, src/rcc/mod.rs lines 414-421:
when the target differs from the source the PLL output is used (the unwrap
cannot panic because fast_setup applied to some target always returns some). -/
def CFGR.sysclkResolved (c : CFGR) : Nat :=
  if c.sysclkTarget = c.pllsrc then c.sysclkTarget
  else (MainPll.fast_setup c.pllsrc c.hse.isSome (some c.sysclkTarget)).pllsysclk.getD 0

/-- AHB divider selection of freeze_internal, src/rcc/mod.rs lines 425-437. -/
def CFGR.ahbDivSel (c : CFGR) : Option Nat :=
  ahbBucket (divCeil c.sysclkResolved (c.hclk.getD c.sysclkResolved))

/-- APB divider selection of freeze_internal, src/rcc/mod.rs lines 442-452
and 459-469: the requested value defaults to min (bus maximum) hclk. -/
def apbDivSel (maxv hclk : Nat) (req : Option Nat) : Option Nat :=
  apbBucket (divCeil hclk (req.getD (min maxv hclk)))

/-- CFGR.freeze_internal, src/rcc/mod.rs lines 409-573, restricted to its
pure clock arithmetic: hardware register commits, oscillator ready polling
and auxiliary clock setup have no effect on the returned Clocks and are not
modelled.  none models a panic: a failed assertion (lines 423, 457, 474) or
a division by zero / unreachable arm in a prescaler match.  The argument
unchecked = true is the freeze_unchecked escape. -/
def CFGR.freeze_internal (c : CFGR) (unchecked : Bool) : Option Clocks :=
  if ¬(unchecked = true ∨ c.sysclkTarget = c.pllsrc ∨
      (SYSCLK_MIN ≤ c.sysclkResolved ∧ c.sysclkResolved ≤ SYSCLK_MAX)) then none
  else
    match c.ahbDivSel with
    | none => none
    | some hdiv =>
      match apbDivSel PCLK1_MAX (c.sysclkResolved / hdiv) c.pclk1 with
      | none => none
      | some d1 =>
        if ¬(unchecked = true ∨ (c.sysclkResolved / hdiv) / d1 ≤ PCLK1_MAX) then none
        else
          match apbDivSel PCLK2_MAX (c.sysclkResolved / hdiv) c.pclk2 with
          | none => none
          | some d2 =>
            if ¬(unchecked = true ∨ (c.sysclkResolved / hdiv) / d2 ≤ PCLK2_MAX) then none
            else some ⟨c.sysclkResolved / hdiv,
                       (c.sysclkResolved / hdiv) / d1,
                       (c.sysclkResolved / hdiv) / d2,
                       c.sysclkResolved⟩

/-- The checked freeze, src/rcc/mod.rs lines 394-396. -/
def CFGR.freeze (c : CFGR) : Option Clocks := c.freeze_internal false

/-- The unchecked freeze escape, src/rcc/mod.rs lines 405-407. -/
def CFGR.freeze_unchecked (c : CFGR) : Option Clocks := c.freeze_internal true

/-- Error marker returned by serial constructors, src/serial.rs config. -/
inductive InvalidConfig
| mk
deriving DecidableEq

/-- Baud rate divider computation of RegisterBlockImpl.new,
src/serial/uart_impls.rs lines 143-154, in u32 arithmetic.  The product
25 * pclk is reduced modulo 2 ^ 32 because it is the one operation that can
wrap for pclk above circa 171 MHz; every later intermediate value stays
below 2 ^ 32. -/
def usartDiv (pclk baud : Nat) : Nat :=
  let integerdivider := ((25 * pclk) % 2 ^ 32) / (4 * baud)
  let tmpregister := (integerdivider / 100) <<< 4
  let fractionaldivider := (((integerdivider - 100 * (tmpregister >>> 4)) * 16) + 50) / 100
  let tmpregister2 :=
    if fractionaldivider >>> 4 = 1 then ((integerdivider / 100) + 1) <<< 4 else tmpregister
  tmpregister2 ||| (fractionaldivider &&& 0x0F)

/-- Fallible part of RegisterBlockImpl.new, src/serial/uart_impls.rs
lines 141-157: the constructor returns Err(InvalidConfig) exactly on the
else branch of the guard pclk / 16 >= baud, before any write of the baud
rate register; on the then branch it computes the divider.  A requested
baud of 0 passes the guard and then divides by zero, a Rust panic,
embedded as none. -/
def uartNewDiv (pclk baud : Nat) : Option (Except InvalidConfig Nat) :=
  if baud ≤ pclk / 16 then
    if baud = 0 then none else some (Except.ok (usartDiv pclk baud))
  else some (Except.error InvalidConfig.mk)

/-- All ones mask of a 32 bit register. -/
def U32_MASK : Nat := 2 ^ 32 - 1

/-- svd2rust bit field write: clear the width bits at offset off, then or in
the new value masked to the field width.  This is the effect of a
w.field().bits(v) call inside a modify closure. -/
def wfield (reg off width v : Nat) : Nat :=
  (reg &&& (U32_MASK ^^^ ((2 ^ width - 1) <<< off))) ||| ((v &&& (2 ^ width - 1)) <<< off)

/-- svd2rust bit field read: the width bits at offset off. -/
def rfield (reg off width : Nat) : Nat := (reg >>> off) &&& (2 ^ width - 1)

/-- Pin mode constants of the PinMode trait, src/gpio/convert.rs
lines 355-359: a 2 bit CNF field, a 2 bit MODE field and an optional pull
direction. -/
structure PinModeSpec where
  CNF : Nat
  MODE : Nat
  PULL : Option Bool
deriving DecidableEq

/-- PinMode for Input(Floating), src/gpio/convert.rs lines 361-365. -/
def InputFloating : PinModeSpec := ⟨1, 0, none⟩

/-- PinMode for Input(PullDown), src/gpio/convert.rs lines 367-371. -/
def InputPullDown : PinModeSpec := ⟨2, 0, some false⟩

/-- PinMode for Input(PullUp), src/gpio/convert.rs lines 373-377. -/
def InputPullUp : PinModeSpec := ⟨2, 0, some true⟩

/-- PinMode for Output(OpenDrain), src/gpio/convert.rs lines 379-382. -/
def OutputOpenDrain : PinModeSpec := ⟨1, 3, none⟩

/-- PinMode for Output(PushPull), src/gpio/convert.rs lines 384-387. -/
def OutputPushPull : PinModeSpec := ⟨0, 3, none⟩

/-- PinMode for Analog, src/gpio/convert.rs lines 389-392. -/
def AnalogMode : PinModeSpec := ⟨0, 0, none⟩

/-- PinMode for Alternate(PushPull), src/gpio/convert.rs lines 394-397. -/
def AlternatePushPull : PinModeSpec := ⟨2, 3, none⟩

/-- PinMode for Alternate(OpenDrain), src/gpio/convert.rs lines 405-408. -/
def AlternateOpenDrain : PinModeSpec := ⟨3, 3, none⟩

/-- One GPIO port: low and high configuration registers (4 bits per pin,
pins 0-7 in pl_cfg, pins 8-15 in ph_cfg) and the output data latch that the
pbsc / pbc set and clear registers act on. -/
structure GpioState where
  pl_cfg : Nat
  ph_cfg : Nat
  odr : Nat
deriving DecidableEq

/-- Modelled from the spec: the pbsc port bit set register of the PAC
(external peripheral access crate, not under src) sets the written bits of
the output latch; src/gpio/convert.rs line 96 writes 1 <<< n to it. -/
def pbscWrite (s : GpioState) (v : Nat) : GpioState :=
  { s with odr := (s.odr ||| v) &&& U32_MASK }

/-- Modelled from the spec: the pbc port bit clear register of the PAC
clears the written bits of the output latch; src/gpio/convert.rs line 98
writes 1 <<< n to it. -/
def pbcWrite (s : GpioState) (v : Nat) : GpioState :=
  { s with odr := s.odr &&& (U32_MASK ^^^ v) }

/-- The mode() primitive of Pin, src/gpio/convert.rs lines 90-121: an
optional pull bit set or clear, then a read-modify-write of the 4 bit
CNF/MODE slot of pin n (low register for n < 8, high register otherwise;
CNF in the upper 2 bits of the slot, MODE in the lower 2 bits, matching the
pcfgN and pmodeN field offsets 4n+2 and 4n of the PAC). -/
def pinModeApply (m : PinModeSpec) (n : Nat) (s : GpioState) : GpioState :=
  let s1 := match m.PULL with
    | none => s
    | some true => pbscWrite s (1 <<< n)
    | some false => pbcWrite s (1 <<< n)
  if n < 8 then
    { s1 with pl_cfg := wfield (wfield s1.pl_cfg (4 * n + 2) 2 m.CNF) (4 * n) 2 m.MODE }
  else
    { s1 with ph_cfg :=
        wfield (wfield s1.ph_cfg (4 * (n - 8) + 2) 2 m.CNF) (4 * (n - 8)) 2 m.MODE }

/-- The 4 bit CNF/MODE slot of pin n as read back from the port registers. -/
def cnfModeField (n : Nat) (s : GpioState) : Nat :=
  if n < 8 then rfield s.pl_cfg (4 * n) 4 else rfield s.ph_cfg (4 * (n - 8)) 4

/-- The assembled 4 bit slot value a mode writes: CNF in the upper two
bits, MODE in the lower two. -/
def slotValue (m : PinModeSpec) : Nat := 4 * m.CNF + m.MODE

/-- Pin.with_mode, src/gpio/convert.rs lines 226-238, together with the
teardown of the ResetMode guard, lines 344-350: switch the pin to the
temporary mode, run the closure (given here as an arbitrary transformer of
the port state, which covers nested scoped conversions), then the guard
drop switches the pin back to the original mode.  Rust runs the drop on
both exit paths (normal return and unwind), so both paths have this same
state effect. -/
def withMode (tempM origM : PinModeSpec) (n : Nat) (f : GpioState → GpioState)
    (s : GpioState) : GpioState :=
  pinModeApply origM n (f (pinModeApply tempM n s))

/-- Bus carrying a peripheral, src/rcc/mod.rs lines 236-240. -/
inductive Bus
| AHB
| APB1
| APB2
deriving DecidableEq

/-- The three bus clock enable registers of the Rcc block
(ahbpclken, apb1pclken, apb2pclken), src/rcc/mod.rs lines 236-240. -/
structure RccClkEn where
  ahb : Nat
  apb1 : Nat
  apb2 : Nat
deriving DecidableEq

/-- Read the clock enable register of one bus. -/
def RccClkEn.reg (s : RccClkEn) : Bus → Nat
  | Bus.AHB => s.ahb
  | Bus.APB1 => s.apb1
  | Bus.APB2 => s.apb2

/-- Write the clock enable register of one bus. -/
def RccClkEn.setReg (s : RccClkEn) : Bus → Nat → RccClkEn
  | Bus.AHB, v => { s with ahb := v }
  | Bus.APB1, v => { s with apb1 := v }
  | Bus.APB2, v => { s with apb2 := v }

/-- Modelled from the spec: bb::set of src/bb.rs (file not under src) is
the bit-banded atomic single bit set used by bus_enable,
src/rcc/enable.rs line 10. -/
def bbSet (reg bit : Nat) : Nat := reg ||| (1 <<< bit)

/-- Modelled from the spec: bb::clear of src/bb.rs (file not under src) is
the bit-banded atomic single bit clear used by bus_enable,
src/rcc/enable.rs line 18. -/
def bbClear (reg bit : Nat) : Nat := reg &&& (U32_MASK ^^^ (1 <<< bit))

/-- A peripheral as declared by the bus! macro: its bus and its fixed bit. -/
structure Periph where
  bus : Bus
  bit : Nat
deriving DecidableEq

/-- Enable impl generated by bus_enable, src/rcc/enable.rs lines 7-14:
a single bit set on the bus clock enable register (the dsb barrier has no
register effect). -/
def Periph.enable (p : Periph) (s : RccClkEn) : RccClkEn :=
  s.setReg p.bus (bbSet (s.reg p.bus) p.bit)

/-- Disable impl generated by bus_enable, src/rcc/enable.rs lines 15-20. -/
def Periph.disable (p : Periph) (s : RccClkEn) : RccClkEn :=
  s.setReg p.bus (bbClear (s.reg p.bus) p.bit)

/-- is_enabled impl generated by bus_enable, src/rcc/enable.rs lines 21-25:
(bits >> bit) & 1 != 0. -/
def Periph.is_enabled (p : Periph) (s : RccClkEn) : Bool :=
  (s.reg p.bus >>> p.bit) &&& 1 != 0

/-- The bus-enabled peripherals of the n32g430 feature with their buses and
bits, src/rcc/enable.rs lines 59-65, 90-117, 149-159, 197-206. -/
def periphTable : List Periph :=
  [⟨Bus.AHB, 7⟩, ⟨Bus.AHB, 8⟩, ⟨Bus.AHB, 9⟩, ⟨Bus.AHB, 10⟩,
   ⟨Bus.AHB, 6⟩, ⟨Bus.AHB, 12⟩, ⟨Bus.AHB, 0⟩,
   ⟨Bus.APB1, 28⟩, ⟨Bus.APB1, 22⟩, ⟨Bus.APB1, 21⟩, ⟨Bus.APB1, 17⟩,
   ⟨Bus.APB1, 11⟩, ⟨Bus.APB1, 6⟩, ⟨Bus.APB1, 4⟩, ⟨Bus.APB1, 3⟩,
   ⟨Bus.APB1, 2⟩, ⟨Bus.APB1, 1⟩, ⟨Bus.APB1, 0⟩,
   ⟨Bus.APB2, 14⟩, ⟨Bus.APB2, 13⟩, ⟨Bus.APB2, 12⟩, ⟨Bus.APB2, 11⟩,
   ⟨Bus.APB2, 0⟩, ⟨Bus.APB2, 19⟩, ⟨Bus.APB2, 18⟩, ⟨Bus.APB2, 17⟩,
   ⟨Bus.APB2, 1⟩, ⟨Bus.APB1, 25⟩, ⟨Bus.APB1, 9⟩, ⟨Bus.APB1, 8⟩]

end N32G4

namespace N32G4

/-- Helper: a successful AHB bucket lookup yields a legal divider, and the
ceiling ratio it was applied to is positive. -/
lemma ahbBucket_some {r d : Nat} (h : ahbBucket r = some d) :
    d ∈ ahbDividers ∧ 0 < d ∧ 0 < r := by
  unfold ahbBucket at h
  split_ifs at h <;>
    first
      | exact Option.noConfusion h
      | (injection h with h; subst h; refine ⟨by decide, by decide, by omega⟩)

/-- Helper: a successful APB bucket lookup yields a legal divider, and the
ceiling ratio it was applied to is positive. -/
lemma apbBucket_some {r d : Nat} (h : apbBucket r = some d) :
    d ∈ apbDividers ∧ 0 < d ∧ 0 < r := by
  unfold apbBucket at h
  split_ifs at h <;>
    first
      | exact Option.noConfusion h
      | (injection h with h; subst h; refine ⟨by decide, by decide, by omega⟩)

/-- Helper: inversion of a successful freeze_internal run, exposing the
selected dividers, the returned Clocks fields and the facts established by
the assertions that were passed. -/
lemma freeze_internal_some {c : CFGR} {u : Bool} {k : Clocks}
    (h : c.freeze_internal u = some k) :
    ∃ hdiv d1 d2,
      c.ahbDivSel = some hdiv ∧
      apbDivSel PCLK1_MAX (c.sysclkResolved / hdiv) c.pclk1 = some d1 ∧
      apbDivSel PCLK2_MAX (c.sysclkResolved / hdiv) c.pclk2 = some d2 ∧
      k = ⟨c.sysclkResolved / hdiv, (c.sysclkResolved / hdiv) / d1,
           (c.sysclkResolved / hdiv) / d2, c.sysclkResolved⟩ ∧
      (u = true ∨ c.sysclkTarget = c.pllsrc ∨
        (SYSCLK_MIN ≤ c.sysclkResolved ∧ c.sysclkResolved ≤ SYSCLK_MAX)) ∧
      (u = true ∨ (c.sysclkResolved / hdiv) / d1 ≤ PCLK1_MAX) ∧
      (u = true ∨ (c.sysclkResolved / hdiv) / d2 ≤ PCLK2_MAX) := by
  unfold CFGR.freeze_internal at h
  split at h
  · exact Option.noConfusion h
  · rename_i hassert
    rw [not_not] at hassert
    split at h
    · exact Option.noConfusion h
    · rename_i hdiv hA
      split at h
      · exact Option.noConfusion h
      · rename_i d1 hB
        split at h
        · exact Option.noConfusion h
        · rename_i h1
          rw [not_not] at h1
          split at h
          · exact Option.noConfusion h
          · rename_i d2 hC
            split at h
            · exact Option.noConfusion h
            · rename_i h2
              rw [not_not] at h2
              injection h with h
              exact ⟨hdiv, d1, d2, hA, hB, hC, h.symm, hassert, h1, h2⟩

/-- Claim C1: evaluation of the PLL solver at a failing input.  The claim
(and the comment above the code, src/rcc/pll.rs lines 22-23) say the solver
selects the prescaler minimizing the residual target - vco_in * multiplier;
the code applies Iterator.max_by_key to that residual and therefore selects
the prescaler with the LARGEST residual.  At pllsrcclk = 8 MHz (HSE) and
target = 84 MHz the residuals are 4 MHz for prescaler 1 and 0 for
prescaler 2; the code picks prescaler 1 and realizes 80 MHz although 84 MHz
is achievable exactly.  The HSI part of the claim (prescaler fixed at 2) is
as stated. -/
theorem thm_C1_solver_eval :
    pllPresc 8000000 84000000 true = 1 ∧
    pllResidual 8000000 84000000 1 = 4000000 ∧
    pllResidual 8000000 84000000 2 = 0 ∧
    (MainPll.fast_setup 8000000 true (some 84000000)).pllsysclk = some 80000000 ∧
    (∀ src target : Nat, pllPresc src target false = 2) :=
  ⟨by rfl, by rfl, by rfl, by rfl, fun _ _ => rfl⟩

/-- Claim C2, counterexample: the checked freeze with the default
configuration (HSI source, nothing requested) returns sysclk = 16 MHz,
below SYSCLK_MIN = 32 MHz, without any unchecked escape: the sysclk range
assertion of src/rcc/mod.rs line 423 is skipped whenever the PLL is not
engaged. -/
theorem thm_C2_cex :
    CFGR.freeze_internal ⟨none, false, none, none, none, none⟩ false =
      some ⟨16000000, 16000000, 16000000, 16000000⟩ ∧
    16000000 < SYSCLK_MIN :=
  ⟨by rfl, by decide⟩

/-- Claim C2 (amended): every Clocks value returned by the checked freeze
satisfies pclk1 at most PCLK1_MAX and pclk2 at most PCLK2_MAX, and the
realized sysclk lies in the SYSCLK_MIN..SYSCLK_MAX range whenever the
sysclk target differs from the source clock (PLL engaged); when the target
equals the source clock the range check is skipped, so an out-of-range
sysclk can also be returned by the checked path. -/
theorem thm_C2 (c : CFGR) (k : Clocks) (h : c.freeze_internal false = some k) :
    k.pclk1 ≤ PCLK1_MAX ∧ k.pclk2 ≤ PCLK2_MAX ∧
    (c.sysclkTarget ≠ c.pllsrc → SYSCLK_MIN ≤ k.sysclk ∧ k.sysclk ≤ SYSCLK_MAX) := by
  obtain ⟨hdiv, d1, d2, hA, hB, hC, hk, hassert, h1, h2⟩ := freeze_internal_some h
  subst hk
  refine ⟨h1.resolve_left (by simp), h2.resolve_left (by simp), fun hne => ?_⟩
  exact ((hassert.resolve_left (by simp)).resolve_left hne)

/-- Witness for thm_C2 at the configuration HSE = 8 MHz, sysclk = 128 MHz. -/
theorem thm_C2_witness :
    (Clocks.mk 128000000 32000000 64000000 128000000).pclk1 ≤ PCLK1_MAX ∧
    (Clocks.mk 128000000 32000000 64000000 128000000).pclk2 ≤ PCLK2_MAX ∧
    ((⟨some 8000000, false, none, none, none, some 128000000⟩ : CFGR).sysclkTarget ≠
        (⟨some 8000000, false, none, none, none, some 128000000⟩ : CFGR).pllsrc →
      SYSCLK_MIN ≤ (Clocks.mk 128000000 32000000 64000000 128000000).sysclk ∧
      (Clocks.mk 128000000 32000000 64000000 128000000).sysclk ≤ SYSCLK_MAX) :=
  thm_C2 ⟨some 8000000, false, none, none, none, some 128000000⟩
    ⟨128000000, 32000000, 64000000, 128000000⟩ (by rfl)

/-- Claim C3, counterexample: with sysclk = 64 MHz (HSE, no PLL) and a
requested hclk of 3 MHz the ceiling ratio is 22, the bucket table selects
divider 16, and the realized hclk is 4 MHz, which exceeds the request; the
divider 64 from the set does satisfy sysclk / d at most the request, so the
chosen divider is not the smallest satisfying one (it does not satisfy the
bound at all), refuting the claim as stated. -/
theorem thm_C3_cex :
    CFGR.freeze_internal ⟨some 64000000, false, some 3000000, none, none, none⟩ false =
      some ⟨4000000, 4000000, 4000000, 64000000⟩ ∧
    ¬(64000000 / 16 ≤ 3000000) ∧ 64000000 / 64 ≤ 3000000 :=
  ⟨by rfl, by decide, by decide⟩

/-- Claim C3 (amended): for every configuration on which freeze returns,
the AHB divider is the bucket-table image of the ceiling ratio of sysclk by
the requested hclk (sysclk itself when unset), it belongs to the set
1,2,4,8,16,64,128,256,512, the realized hclk equals sysclk / divider, and
the realized hclk is at most the request whenever the ceiling ratio is at
most the chosen divider; when the ratio falls in a bucket gap (for example
ratios 17..39 map to divider 16) the realized hclk can exceed the request. -/
theorem thm_C3 (c : CFGR) (u : Bool) (k : Clocks) (h : c.freeze_internal u = some k) :
    ∃ d, d ∈ ahbDividers ∧
      ahbBucket (divCeil k.sysclk (c.hclk.getD k.sysclk)) = some d ∧
      k.hclk = k.sysclk / d ∧
      (divCeil k.sysclk (c.hclk.getD k.sysclk) ≤ d → k.hclk ≤ c.hclk.getD k.sysclk) := by
  obtain ⟨hdiv, d1, d2, hA, hB, hC, hk, -, -, -⟩ := freeze_internal_some h
  subst hk
  dsimp only
  unfold CFGR.ahbDivSel at hA
  obtain ⟨hmem, hdpos, hrpos⟩ := ahbBucket_some hA
  refine ⟨hdiv, hmem, hA, rfl, ?_⟩
  intro hrd
  have hq0 : c.hclk.getD c.sysclkResolved ≠ 0 := by
    intro h0
    rw [h0] at hrpos
    simp [divCeil] at hrpos
  have h2 := (Nat.div_le_iff_le_mul_add_pred (Nat.pos_of_ne_zero hq0)).1 hrd
  have hle : c.sysclkResolved ≤ (c.hclk.getD c.sysclkResolved) * hdiv := by
    unfold divCeil at h2
    omega
  calc c.sysclkResolved / hdiv
      ≤ ((c.hclk.getD c.sysclkResolved) * hdiv) / hdiv := Nat.div_le_div_right hle
    _ = c.hclk.getD c.sysclkResolved := Nat.mul_div_cancel _ hdpos

/-- Witness for thm_C3 at the configuration HSE = 64 MHz, hclk = 3 MHz. -/
theorem thm_C3_witness :
    ∃ d, d ∈ ahbDividers ∧
      ahbBucket (divCeil (Clocks.mk 4000000 4000000 4000000 64000000).sysclk
        ((Option.some 3000000).getD
          (Clocks.mk 4000000 4000000 4000000 64000000).sysclk)) = some d ∧
      (Clocks.mk 4000000 4000000 4000000 64000000).hclk =
        (Clocks.mk 4000000 4000000 4000000 64000000).sysclk / d ∧
      (divCeil (Clocks.mk 4000000 4000000 4000000 64000000).sysclk
          ((Option.some 3000000).getD
            (Clocks.mk 4000000 4000000 4000000 64000000).sysclk) ≤ d →
        (Clocks.mk 4000000 4000000 4000000 64000000).hclk ≤
          (Option.some 3000000).getD
            (Clocks.mk 4000000 4000000 4000000 64000000).sysclk) :=
  thm_C3 ⟨some 64000000, false, some 3000000, none, none, none⟩ false
    ⟨4000000, 4000000, 4000000, 64000000⟩ (by rfl)

/-- Claim C4: every Clocks returned by the checked freeze has pclk1 equal
to hclk / d for a divider d in 1,2,4,8,16 with pclk1 at most PCLK1_MAX, and
likewise for pclk2 against PCLK2_MAX; and in the concrete scenario of the
specification, requesting pclk1 = 100 MHz with sysclk = 128 MHz from an
8 MHz HSE makes the checked path panic (the realized 64 MHz exceeds
PCLK1_MAX = 32 MHz) rather than silently granting the request. -/
theorem thm_C4 :
    (∀ (c : CFGR) (k : Clocks), c.freeze_internal false = some k →
      ((∃ d, d ∈ apbDividers ∧ k.pclk1 = k.hclk / d) ∧ k.pclk1 ≤ PCLK1_MAX) ∧
      ((∃ d, d ∈ apbDividers ∧ k.pclk2 = k.hclk / d) ∧ k.pclk2 ≤ PCLK2_MAX)) ∧
    CFGR.freeze_internal ⟨some 8000000, false, none, some 100000000, none, some 128000000⟩
      false = none := by
  constructor
  · intro c k h
    obtain ⟨hdiv, d1, d2, hA, hB, hC, hk, hassert, h1, h2⟩ := freeze_internal_some h
    subst hk
    unfold apbDivSel at hB hC
    exact ⟨⟨⟨d1, (apbBucket_some hB).1, rfl⟩, h1.resolve_left (by simp)⟩,
           ⟨d2, (apbBucket_some hC).1, rfl⟩, h2.resolve_left (by simp)⟩
  · rfl

/-- Witness for the universally quantified part of thm_C4. -/
theorem thm_C4_witness :
    ((∃ d, d ∈ apbDividers ∧
        (Clocks.mk 128000000 32000000 64000000 128000000).pclk1 =
          (Clocks.mk 128000000 32000000 64000000 128000000).hclk / d) ∧
      (Clocks.mk 128000000 32000000 64000000 128000000).pclk1 ≤ PCLK1_MAX) ∧
    ((∃ d, d ∈ apbDividers ∧
        (Clocks.mk 128000000 32000000 64000000 128000000).pclk2 =
          (Clocks.mk 128000000 32000000 64000000 128000000).hclk / d) ∧
      (Clocks.mk 128000000 32000000 64000000 128000000).pclk2 ≤ PCLK2_MAX) :=
  thm_C4.1 ⟨some 8000000, false, none, none, none, some 128000000⟩
    ⟨128000000, 32000000, 64000000, 128000000⟩ (by rfl)

/-- Claim C5, counterexample: with HSE = 1 MHz and sysclk target = 33 MHz
the solver derives multiplier 66; the encoding then produces field value
49, which does not fit the 4 bit base field (values 0..15), yet this
configuration passes the checked freeze completely (realized sysclk 33 MHz
is in range), so the truncating register write is reachable. -/
theorem thm_C5_cex :
    pllMul 1000000 33000000 true = 66 ∧
    pllmulfctEnc (pllMul 1000000 33000000 true) = (true, 49) ∧
    ¬((pllmulfctEnc (pllMul 1000000 33000000 true)).2 < 16) ∧
    CFGR.freeze_internal ⟨some 1000000, false, none, none, none, some 33000000⟩ false =
      some ⟨33000000, 16500000, 33000000, 33000000⟩ :=
  ⟨by rfl, by rfl, by decide, by rfl⟩

/-- Helper for claim C5: the encoding facts for a multiplier in 1..32. -/
lemma pllmulfctEnc_in_range {m : Nat} (hm1 : 1 ≤ m) (hm2 : m ≤ 32) :
    (16 < m → pllmulfctEnc m = (true, m - 17)) ∧
    (m ≤ 16 → pllmulfctEnc m = (false, m - 1)) ∧
    (pllmulfctEnc m).2 < 16 := by
  unfold pllmulfctEnc
  by_cases h : 16 < m
  · rw [if_pos h]
    refine ⟨fun _ => rfl, fun hle => absurd h (by omega), ?_⟩
    show m - 17 < 16
    omega
  · rw [if_neg h]
    have hmod : (m + (2 ^ 32 - 1)) % 2 ^ 32 = m - 1 := by
      have hp : (2 : Nat) ^ 32 = 4294967296 := by norm_num
      rw [hp]
      omega
    refine ⟨fun hgt => absurd hgt h, fun _ => ?_, ?_⟩
    · rw [hmod]
    · show (m + (2 ^ 32 - 1)) % 2 ^ 32 < 16
      rw [hmod]
      omega

/-- Claim C5 (amended): the multiplier field is encoded as multiplier - 17
with the high flag set when the multiplier exceeds 16, and as
multiplier - 1 with the flag clear otherwise, and the resulting field value
fits the 4 bit hardware field whenever the derived multiplier lies in
1..32; outside that range the subtraction underflows (multiplier 0) or the
field exceeds 4 bits (multiplier above 32), as thm_C5_cex shows on a
reachable configuration. -/
theorem thm_C5 (pllsrcclk target : Nat) (use_hse : Bool)
    (h1 : 1 ≤ pllMul pllsrcclk target use_hse)
    (h2 : pllMul pllsrcclk target use_hse ≤ 32) :
    (16 < pllMul pllsrcclk target use_hse →
      pllmulfctEnc (pllMul pllsrcclk target use_hse) =
        (true, pllMul pllsrcclk target use_hse - 17)) ∧
    (pllMul pllsrcclk target use_hse ≤ 16 →
      pllmulfctEnc (pllMul pllsrcclk target use_hse) =
        (false, pllMul pllsrcclk target use_hse - 1)) ∧
    (pllmulfctEnc (pllMul pllsrcclk target use_hse)).2 < 16 :=
  pllmulfctEnc_in_range h1 h2

/-- Witness for thm_C5 at HSE = 8 MHz, target = 128 MHz (multiplier 32). -/
theorem thm_C5_witness :
    (16 < pllMul 8000000 128000000 true →
      pllmulfctEnc (pllMul 8000000 128000000 true) =
        (true, pllMul 8000000 128000000 true - 17)) ∧
    (pllMul 8000000 128000000 true ≤ 16 →
      pllmulfctEnc (pllMul 8000000 128000000 true) =
        (false, pllMul 8000000 128000000 true - 1)) ∧
    (pllmulfctEnc (pllMul 8000000 128000000 true)).2 < 16 :=
  thm_C5 8000000 128000000 true (by decide) (by decide)

/-- Claim C6: whenever freeze returns with the PLL engaged, the stored
sysclk equals the realized PLL output vco_in * multiplier; and in the
concrete scenario of the specification, requesting sysclk = 128 MHz from an
8 MHz HSE sets use_pll and realizes exactly 128 MHz. -/
theorem thm_C6 :
    (∀ (c : CFGR) (u : Bool) (k : Clocks), c.freeze_internal u = some k →
      c.sysclkTarget ≠ c.pllsrc →
      k.sysclk = (c.pllsrc / pllPresc c.pllsrc c.sysclkTarget c.hse.isSome) *
        pllMul c.pllsrc c.sysclkTarget c.hse.isSome) ∧
    ((MainPll.fast_setup 8000000 true (some 128000000)).use_pll = true ∧
      CFGR.freeze_internal ⟨some 8000000, false, none, none, none, some 128000000⟩ false =
        some ⟨128000000, 32000000, 64000000, 128000000⟩) := by
  constructor
  · intro c u k h hne
    obtain ⟨hdiv, d1, d2, hA, hB, hC, hk, -, -, -⟩ := freeze_internal_some h
    subst hk
    show c.sysclkResolved = _
    rw [CFGR.sysclkResolved, if_neg hne]
    simp [MainPll.fast_setup, pllMul]
  · exact ⟨rfl, by rfl⟩

/-- Witness for the universally quantified part of thm_C6. -/
theorem thm_C6_witness :
    (Clocks.mk 128000000 32000000 64000000 128000000).sysclk =
      ((⟨some 8000000, false, none, none, none, some 128000000⟩ : CFGR).pllsrc /
        pllPresc (⟨some 8000000, false, none, none, none, some 128000000⟩ : CFGR).pllsrc
          (⟨some 8000000, false, none, none, none, some 128000000⟩ : CFGR).sysclkTarget
          (⟨some 8000000, false, none, none, none, some 128000000⟩ : CFGR).hse.isSome) *
        pllMul (⟨some 8000000, false, none, none, none, some 128000000⟩ : CFGR).pllsrc
          (⟨some 8000000, false, none, none, none, some 128000000⟩ : CFGR).sysclkTarget
          (⟨some 8000000, false, none, none, none, some 128000000⟩ : CFGR).hse.isSome :=
  thm_C6.1 ⟨some 8000000, false, none, none, none, some 128000000⟩ false
    ⟨128000000, 32000000, 64000000, 128000000⟩ (by rfl) (by decide)

/-- Claim C7, counterexample: a requested baud of 0 passes the guard
pclk / 16 at least baud, so instead of returning Ok the divider computation
divides by zero, a Rust panic; the claim says the constructor never
panics on the non-error branch. -/
theorem thm_C7_cex :
    uartNewDiv 16000000 0 = none ∧ ¬(16000000 / 16 < 0) :=
  ⟨by rfl, by decide⟩

/-- Claim C7 (amended): the serial constructor returns Err(InvalidConfig),
before any write of the baud rate register, exactly when pclk / 16 is less
than the requested baud under integer division; for any positive baud
within reach it computes the divider and returns Ok; a requested baud of 0
instead panics with a division by zero. -/
theorem thm_C7 (pclk baud : Nat) :
    (uartNewDiv pclk baud = some (Except.error InvalidConfig.mk) ↔ pclk / 16 < baud) ∧
    (1 ≤ baud → baud ≤ pclk / 16 →
      uartNewDiv pclk baud = some (Except.ok (usartDiv pclk baud))) := by
  unfold uartNewDiv
  constructor
  · by_cases hle : baud ≤ pclk / 16
    · rw [if_pos hle]
      by_cases h0 : baud = 0
      · rw [if_pos h0]
        simp
        omega
      · rw [if_neg h0]
        simp
        omega
    · rw [if_neg hle]
      simp
      omega
  · intro hb hle
    rw [if_pos hle, if_neg (by omega)]

/-- Witness for thm_C7 at pclk = 16 MHz, baud = 115200. -/
theorem thm_C7_witness :
    uartNewDiv 16000000 115200 = some (Except.ok (usartDiv 16000000 115200)) :=
  (thm_C7 16000000 115200).2 (by decide) (by decide)

end N32G4

namespace N32G4

/-- Helper: the bit of a wfield result, below offset, inside the field, and
above it (bits at 32 and beyond are cleared by the 32 bit mask). -/
lemma testBit_wfield (reg off w v i : Nat) (hw : off + w ≤ 32) :
    (wfield reg off w v).testBit i =
      if off ≤ i ∧ i < off + w then v.testBit (i - off)
      else (reg.testBit i && decide (i < 32)) := by
  unfold wfield U32_MASK
  simp only [Nat.testBit_or, Nat.testBit_and, Nat.testBit_xor, Nat.testBit_shiftLeft,
    Nat.testBit_two_pow_sub_one]
  by_cases hle : off ≤ i
  · by_cases hlt : i < off + w
    · have h1 : i - off < w := by omega
      have h2 : i < 32 := by omega
      simp [hle, hlt, h1, h2]
    · have h1 : ¬(i - off < w) := by omega
      by_cases h2 : i < 32
      · simp [hle, hlt, h1, h2]
      · simp [hle, hlt, h1, h2]
  · have h1 : ¬(off ≤ i ∧ i < off + w) := by omega
    by_cases h2 : i < 32
    · simp [hle, h1, h2]
    · simp [hle, h1, h2]

/-- Helper: reading back the 4 bit slot after writing its CNF (upper half)
and MODE (lower half) subfields yields 4 * CNF + MODE, independently of the
previous register contents. -/
lemma slot_read_write (reg off c m : Nat) (h32 : off + 4 ≤ 32) (hc : c < 4) (hm : m < 4) :
    rfield (wfield (wfield reg (off + 2) 2 c) off 2 m) off 4 = 4 * c + m := by
  have hcm : 4 * c + m = (c <<< 2) ||| m := by
    interval_cases c <;> interval_cases m <;> decide
  rw [hcm]
  apply Nat.eq_of_testBit_eq
  intro j
  unfold rfield
  simp only [Nat.testBit_and, Nat.testBit_shiftRight, Nat.testBit_two_pow_sub_one,
    Nat.testBit_or, Nat.testBit_shiftLeft]
  rw [testBit_wfield _ _ _ _ _ (show off + 2 ≤ 32 by omega),
      testBit_wfield _ _ _ _ _ (show (off + 2) + 2 ≤ 32 by omega)]
  by_cases hj4 : j < 4
  · by_cases hj2 : j < 2
    · rw [if_pos (show off ≤ off + j ∧ off + j < off + 2 by omega)]
      have e1 : off + j - off = j := by omega
      rw [e1]
      simp [show ¬(2 ≤ j) by omega, hj4]
    · rw [if_neg (show ¬(off ≤ off + j ∧ off + j < off + 2) by omega),
          if_pos (show off + 2 ≤ off + j ∧ off + j < off + 2 + 2 by omega)]
      have e1 : off + j - (off + 2) = j - 2 := by omega
      rw [e1]
      have hmj : m.testBit j = false := by
        apply Nat.testBit_lt_two_pow
        have hp : (2 : Nat) ^ 2 ≤ 2 ^ j := Nat.pow_le_pow_right (by omega) (by omega)
        norm_num at hp
        omega
      simp [show off + j < 32 by omega, show 2 ≤ j by omega, hmj, hj4]
  · have hcj : c.testBit (j - 2) = false := by
      apply Nat.testBit_lt_two_pow
      have hp : (2 : Nat) ^ 2 ≤ 2 ^ (j - 2) := Nat.pow_le_pow_right (by omega) (by omega)
      norm_num at hp
      omega
    have hmj : m.testBit j = false := by
      apply Nat.testBit_lt_two_pow
      have hp : (2 : Nat) ^ 2 ≤ 2 ^ j := Nat.pow_le_pow_right (by omega) (by omega)
      norm_num at hp
      omega
    simp [hj4, hcj, hmj]

/-- Helper: the pull side effect of mode() touches only the output latch,
so the low configuration register after mode() is the double field write. -/
lemma pinModeApply_cfg_low (m : PinModeSpec) (n : Nat) (s : GpioState) (hn : n < 8) :
    (pinModeApply m n s).pl_cfg =
      wfield (wfield s.pl_cfg (4 * n + 2) 2 m.CNF) (4 * n) 2 m.MODE := by
  unfold pinModeApply
  cases hp : m.PULL with
  | none => simp [hp, hn]
  | some b => cases b <;> simp [hp, hn, pbscWrite, pbcWrite]

/-- Helper: high register variant of pinModeApply_cfg_low. -/
lemma pinModeApply_cfg_high (m : PinModeSpec) (n : Nat) (s : GpioState) (hn : ¬(n < 8)) :
    (pinModeApply m n s).ph_cfg =
      wfield (wfield s.ph_cfg (4 * (n - 8) + 2) 2 m.CNF) (4 * (n - 8)) 2 m.MODE := by
  unfold pinModeApply
  cases hp : m.PULL with
  | none => simp [hp, hn]
  | some b => cases b <;> simp [hp, hn, pbscWrite, pbcWrite]

/-- Helper: after mode(), the 4 bit CNF/MODE slot of the pin reads back as
the slot value of the written mode, whatever the previous port state. -/
lemma cnfModeField_pinModeApply (m : PinModeSpec) (n : Nat) (s : GpioState)
    (hn : n < 16) (hc : m.CNF < 4) (hm : m.MODE < 4) :
    cnfModeField n (pinModeApply m n s) = slotValue m := by
  unfold cnfModeField slotValue
  by_cases h8 : n < 8
  · rw [if_pos h8, pinModeApply_cfg_low m n s h8]
    exact slot_read_write _ _ _ _ (by omega) hc hm
  · rw [if_neg h8, pinModeApply_cfg_high m n s h8]
    exact slot_read_write _ _ _ _ (by omega) hc hm

/-- Claim C8: for every scoped with_mode conversion on a pin whose
type-state matches the hardware (the CNF/MODE slot holds the original
mode), after the closure exits the slot again equals its pre-call value,
restored by the guard teardown that reruns mode() with the original mode.
The closure is an arbitrary transformer of the port state, which covers
nested scoped conversions; Rust runs the guard drop on normal return and on
unwind alike, so both exit paths have exactly this state effect. -/
theorem thm_C8 (tempM origM : PinModeSpec) (n : Nat) (f : GpioState → GpioState)
    (s : GpioState) (hn : n < 16) (hc : origM.CNF < 4) (hm : origM.MODE < 4)
    (hmatch : cnfModeField n s = slotValue origM) :
    cnfModeField n (withMode tempM origM n f s) = cnfModeField n s := by
  unfold withMode
  rw [cnfModeField_pinModeApply origM n _ hn hc hm, hmatch]

/-- Witness for thm_C8: pin 3 configured as floating input, temporarily
analog, with a nested scoped push-pull conversion inside the closure. -/
theorem thm_C8_witness :
    cnfModeField 3 (withMode AnalogMode InputFloating 3
        (withMode OutputPushPull AnalogMode 3 id) ⟨0x44444444, 0, 0⟩) =
      cnfModeField 3 ⟨0x44444444, 0, 0⟩ :=
  thm_C8 AnalogMode InputFloating 3 (withMode OutputPushPull AnalogMode 3 id)
    ⟨0x44444444, 0, 0⟩ (by decide) (by decide) (by decide) (by decide)

/-- Helper: the 32 bit all-ones mask has exactly the bits below 32 set. -/
lemma testBit_U32_MASK (i : Nat) : Nat.testBit U32_MASK i = decide (i < 32) := by
  unfold U32_MASK
  exact Nat.testBit_two_pow_sub_one 32 i

/-- Helper: is_enabled reads exactly the testBit of the bus register. -/
lemma isEnabled_eq_testBit (p : Periph) (s : RccClkEn) :
    p.is_enabled s = (s.reg p.bus).testBit p.bit := by
  unfold Periph.is_enabled Nat.testBit
  rw [Nat.land_comm]

/-- Helper: reading the bus register just written. -/
lemma reg_setReg_same (s : RccClkEn) (b : Bus) (v : Nat) :
    (s.setReg b v).reg b = v := by
  cases b <;> rfl

/-- Helper: writing one bus register leaves the other bus registers as
they were. -/
lemma reg_setReg_ne (s : RccClkEn) (b1 b2 : Bus) (v : Nat) (h : b2 ≠ b1) :
    (s.setReg b1 v).reg b2 = s.reg b2 := by
  cases b1 <;> cases b2 <;> first | rfl | exact absurd rfl h

/-- Claim C9: for every bus-enabled peripheral of the table, enable()
followed by is_enabled() returns true and disable() followed by
is_enabled() returns false, from any register state; moreover enable and
disable touch only that peripheral bit of its own bus clock enable
register: the other two bus registers and every other bit of the same
register are unchanged. -/
theorem thm_C9 :
    ∀ p ∈ periphTable, ∀ s : RccClkEn, s.reg p.bus < 2 ^ 32 →
      p.is_enabled (p.enable s) = true ∧
      p.is_enabled (p.disable s) = false ∧
      (∀ b : Bus, b ≠ p.bus → (p.enable s).reg b = s.reg b ∧ (p.disable s).reg b = s.reg b) ∧
      (∀ j, j ≠ p.bit →
        ((p.enable s).reg p.bus).testBit j = (s.reg p.bus).testBit j ∧
        ((p.disable s).reg p.bus).testBit j = (s.reg p.bus).testBit j) := by
  have hbit : ∀ p ∈ periphTable, p.bit < 32 := by decide
  intro p hp s hreg
  have hb := hbit p hp
  refine ⟨?_, ?_, ?_, ?_⟩
  · rw [isEnabled_eq_testBit]
    unfold Periph.enable
    rw [reg_setReg_same]
    simp [bbSet, Nat.one_shiftLeft, Nat.testBit_two_pow_self]
  · rw [isEnabled_eq_testBit]
    unfold Periph.disable
    rw [reg_setReg_same]
    simp [bbClear, testBit_U32_MASK, Nat.one_shiftLeft, Nat.testBit_two_pow_self, hb]
  · intro b hbne
    unfold Periph.enable Periph.disable
    exact ⟨reg_setReg_ne s p.bus b _ hbne, reg_setReg_ne s p.bus b _ hbne⟩
  · intro j hj
    unfold Periph.enable Periph.disable
    rw [reg_setReg_same, reg_setReg_same]
    constructor
    · simp [bbSet, Nat.one_shiftLeft, Nat.testBit_two_pow_of_ne (Ne.symm hj)]
    · by_cases hj32 : j < 32
      · simp [bbClear, testBit_U32_MASK, Nat.one_shiftLeft,
          Nat.testBit_two_pow_of_ne (Ne.symm hj), hj32]
      · have h1 : (s.reg p.bus).testBit j = false := by
          apply Nat.testBit_lt_two_pow
          have hp2 : (2 : Nat) ^ 32 ≤ 2 ^ j := Nat.pow_le_pow_right (by omega) (by omega)
          omega
        simp [bbClear, testBit_U32_MASK, Nat.one_shiftLeft,
          Nat.testBit_two_pow_of_ne (Ne.symm hj), hj32, h1]

/-- Witness for thm_C9 at the SPI1 peripheral (APB2, bit 12) from the all
zero register state. -/
theorem thm_C9_witness :
    (Periph.mk Bus.APB2 12).is_enabled
        ((Periph.mk Bus.APB2 12).enable ⟨0, 0, 0⟩) = true ∧
    (Periph.mk Bus.APB2 12).is_enabled
        ((Periph.mk Bus.APB2 12).disable ⟨0, 0, 0⟩) = false :=
  ⟨(thm_C9 ⟨Bus.APB2, 12⟩ (by decide) ⟨0, 0, 0⟩ (by decide)).1,
   (thm_C9 ⟨Bus.APB2, 12⟩ (by decide) ⟨0, 0, 0⟩ (by decide)).2.1⟩

/-- Claim C10, counterexample: with HSE = 160 MHz and nothing else
requested (pclk1 left to its default), the realized defaulted pclk1 is
160 MHz / 4 = 40 MHz, above PCLK1_MAX = 32 MHz: the unchecked path returns
it and the checked path panics, so the defaulting alone does not keep the
realized value below the maximum for every hclk. -/
theorem thm_C10_cex :
    (⟨some 160000000, false, none, none, none, none⟩ : CFGR).pclk1 = none ∧
    CFGR.freeze_internal ⟨some 160000000, false, none, none, none, none⟩ true =
      some ⟨160000000, 40000000, 40000000, 160000000⟩ ∧
    ¬(40000000 ≤ PCLK1_MAX) ∧
    CFGR.freeze_internal ⟨some 160000000, false, none, none, none, none⟩ false = none :=
  ⟨rfl, by rfl, by decide, by rfl⟩

/-- Helper for claim C10: for a defaulted request min maxv hclk, the
realized hclk / divider stays below maxv provided hclk is at most
4 * maxv. -/
lemma apb_default_le {m h d : Nat} (hm : 0 < m) (hh : h ≤ 4 * m)
    (hd : apbBucket (divCeil h (min m h)) = some d) : h / d ≤ m := by
  rcases Nat.le_total h m with hcase | hcase
  · rw [Nat.min_eq_right hcase] at hd
    exact Nat.le_trans (Nat.div_le_self h d) hcase
  · rw [Nat.min_eq_left hcase] at hd
    unfold apbBucket divCeil at hd
    split_ifs at hd with h0 h1 h2 h3 h4
    · injection hd with hd
      subst hd
      have hlt : h + m - 1 < 2 * m := (Nat.div_lt_iff_lt_mul hm).1 (by omega)
      simp only [Nat.div_one]
      omega
    · injection hd with hd
      subst hd
      have hlt : h + m - 1 < 3 * m := (Nat.div_lt_iff_lt_mul hm).1 (by omega)
      have hb : h ≤ 2 * m := by omega
      calc h / 2 ≤ (2 * m) / 2 := Nat.div_le_div_right hb
        _ = m := by omega
    · injection hd with hd
      subst hd
      calc h / 4 ≤ (4 * m) / 4 := Nat.div_le_div_right hh
        _ = m := by omega
    · exfalso
      have h6 : 6 ≤ (h + m - 1) / m := by omega
      have := (Nat.le_div_iff_mul_le hm).1 h6
      omega
    · exfalso
      have h12 : 12 ≤ (h + m - 1) / m := by omega
      have := (Nat.le_div_iff_mul_le hm).1 h12
      omega

/-- Claim C10 (amended): the defaulted APB targets are min PCLK1_MAX hclk
and min PCLK2_MAX hclk, and the realized defaulted pclk never exceeds its
maximum provided hclk is at most four times that maximum (which holds for
every hclk at most SYSCLK_MAX); for larger hclk, reachable through
freeze_unchecked or an out-of-range non-PLL source, the realized default
can exceed the maximum, as thm_C10_cex shows at hclk = 160 MHz. -/
theorem thm_C10 :
    (∀ hclk d, hclk ≤ 4 * PCLK1_MAX → apbDivSel PCLK1_MAX hclk none = some d →
      hclk / d ≤ PCLK1_MAX) ∧
    (∀ hclk d, hclk ≤ 4 * PCLK2_MAX → apbDivSel PCLK2_MAX hclk none = some d →
      hclk / d ≤ PCLK2_MAX) := by
  constructor
  · intro hclk d hh hd
    exact apb_default_le (by decide) hh hd
  · intro hclk d hh hd
    exact apb_default_le (by decide) hh hd

/-- Witness for thm_C10 at hclk = SYSCLK_MAX = 128 MHz. -/
theorem thm_C10_witness :
    (128000000 : Nat) / 4 ≤ PCLK1_MAX :=
  thm_C10.1 128000000 4 (by decide) (by rfl)

end N32G4
